import Mathlib

/-!
Verification of the fedimg EC2 upload pipeline (fedimg/services/ec2.py and
fedimg/uploader.py) against its natural-language specification.

The Python source is shallowly embedded: strings are `List Char` wrapped in
`String`, the regular expressions used by the source are embedded as explicit
matching functions with Python `re` semantics (ASCII character classes, as in
Python 2 `str` patterns), fallible code returns `Except`, and the stateful
orchestration in `EC2Service.upload` is embedded as a function producing the
ordered trace of remote operations together with the resource-reference state
after each step.
-/

/-- Python `\w` on an ASCII string: letters, digits and underscore. -/
def isWordCharPy (c : Char) : Bool :=
  c.isAlphanum || c = '_'

/-- Python `\s` on an ASCII string: space, tab, newline, carriage return,
form feed and vertical tab. -/
def isSpaceCharPy (c : Char) : Bool :=
  c = ' ' || c = '\t' || c = '\n' || c = '\r' || c = '\x0c' || c = '\x0b'

/-- Python substring containment, `needle in hay` (ec2.py line 230 uses
`if 'completed' in out`). -/
def strContains (hay needle : List Char) : Bool :=
  match hay with
  | [] => needle.isEmpty
  | _ :: t => needle.isPrefixOf hay || strContains t needle

/-- Attempt of the regex fragment `vol-\w{17}` at the head of `l`
(ec2.py line 231); returns the captured group on success. -/
def matchVolAt (l : List Char) : Option (List Char) :=
  match l with
  | 'v' :: 'o' :: 'l' :: '-' :: rest =>
      let w := rest.take 17
      if w.length == 17 && w.all isWordCharPy then
        some (['v', 'o', 'l', '-'] ++ w)
      else none
  | _ => none

/-- Attempt of the regex fragment `import-vol-\w{8}` at the head of `l`
(ec2.py line 124); returns the captured group on success. -/
def matchImportAt (l : List Char) : Option (List Char) :=
  match l with
  | 'i' :: 'm' :: 'p' :: 'o' :: 'r' :: 't' :: '-' :: 'v' :: 'o' :: 'l' :: '-' :: rest =>
      let w := rest.take 8
      if w.length == 8 && w.all isWordCharPy then
        some (['i', 'm', 'p', 'o', 'r', 't', '-', 'v', 'o', 'l', '-'] ++ w)
      else none
  | _ => none

/-- `re.search` of a pattern of the shape `\s(GROUP)`: scan left to right for
a whitespace character whose suffix matches the group matcher `f`, and return
the leftmost captured group. -/
def searchTokenWith (f : List Char → Option (List Char)) : List Char → Option (List Char)
  | [] => none
  | c :: t =>
      if isSpaceCharPy c then
        match f t with
        | some v => some v
        | none => searchTokenWith f t
      else searchTokenWith f t

/-- Result of one poll of `euca-describe-conversion-tasks`: either the
resolved volume id or the falsy not-yet signal that makes the `@retry`
decorator try again. -/
inductive PollResult where
  | done (volume_id : String)
  | notYet
deriving DecidableEq

/-- Abstract error outcomes of the upload pipeline.  `malformedStatus` models
the `AttributeError` raised at ec2.py line 232 when `re.search` returned
`None`; `volumeNotFound` models the `IndexError` raised at ec2.py line 201
when the volume-id filter yields an empty list; `taskIdNotFound` exists in
the error taxonomy of the spec but is produced nowhere in the code. -/
inductive UploadError where
  | taskIdNotFound
  | malformedStatus
  | volumeNotFound
deriving DecidableEq

/-- One iteration of `EC2Service.describe_conversion_tasks`
(ec2.py lines 208 to 236), given the output `out` of the status command:
if `out` contains `completed`, search for `\s(vol-\w{17})` and return the
group (crashing, here `malformedStatus`, if there is none); otherwise return
the empty, falsy, not-yet value. -/
def describe_conversion_tasks (out : String) : Except UploadError PollResult :=
  if strContains out.data ("completed".data) then
    match searchTokenWith matchVolAt out.data with
    | some v => Except.ok (PollResult.done (String.mk v))
    | none => Except.error UploadError.malformedStatus
  else Except.ok PollResult.notYet

/-- `EC2Service.match_regex_pattern` (ec2.py lines 291 to 304), specialised to
patterns of the shape `\s(GROUP)` through the group matcher: the captured
group of the first match, or the empty string when there is no match. -/
def match_regex_pattern (matchAt : List Char → Option (List Char)) (output : String) : String :=
  match searchTokenWith matchAt output.data with
  | none => ""
  | some g => String.mk g

/-- Decimal digits of `n + 1` for a digit character `c`, as Python
`str(int(c) + 1)` (ec2.py line 328). -/
def digitSucc (c : Char) : List Char :=
  (Nat.repr (c.toNat - 48 + 1)).data

/-- Global substitution `re.sub('\d(?!\d)', lambda x: str(int(x.group(0)) + 1), name)`
(ec2.py lines 326 to 329) over the character list: every digit that is not
followed by another digit is replaced by the decimal rendering of its value
plus one. -/
def subDigits : List Char → List Char
  | [] => []
  | [c] => if c.isDigit then digitSucc c else [c]
  | c :: d :: t =>
      if c.isDigit && !d.isDigit then digitSucc c ++ subDigits (d :: t)
      else c :: subDigits (d :: t)

/-- The next candidate image name tried by `EC2Service.register_image` after a
duplicate-name error (ec2.py lines 324 to 329). -/
def register_image_next_name (image_name : String) : String :=
  String.mk (subDigits image_name.data)

/-- The resource references held by an `EC2Service` instance
(ec2.py lines 68 to 70): `self.volume`, `self.snapshot`, `self.image`. -/
structure Refs where
  volume : Option String
  snapshot : Option String
  image : Option String
deriving DecidableEq

/-- A remote call issued by `EC2Service._clean_up`. -/
inductive CleanupCall where
  | deleteImage (image : String)
  | destroySnapshot (snapshot : String)
deriving DecidableEq

/-- `EC2Service._clean_up` (ec2.py lines 84 to 93): the updated references and
the ordered driver calls issued.  Note the guards as written in the source:
the image is deleted when `delete_images and self.image is not None`, and the
snapshot is destroyed when `self.snapshot and self.image is not None`. -/
def clean_up (st : Refs) (delete_images : Bool) : Refs × List CleanupCall :=
  let imgCalls : List CleanupCall :=
    match delete_images, st.image with
    | true, some i => [CleanupCall.deleteImage i]
    | _, _ => []
  match st.snapshot, st.image with
  | some s, some _ => ({ st with snapshot := none }, imgCalls ++ [CleanupCall.destroySnapshot s])
  | _, _ => (st, imgCalls)

/-- The volume selection of `EC2Service.create_snapshot` (ec2.py lines 200
to 201): `[v for v in self.driver.list_volumes() if v.id == volume_id][0]`,
with the indexing made fallible. -/
def selectVolume (volumes : List String) (volume_id : String) : Option String :=
  (volumes.filter (fun v => v == volume_id)).head?

/-- `EC2Service.create_snapshot` (ec2.py lines 187 to 206), up to the driver
calls: from the ids listed by the driver and the requested volume id, either
the `IndexError` (here `volumeNotFound`) when no listed volume has that id,
or the selected volume together with the snapshot name
`fedimg-snap-.. build name ..` that the snapshot is created under. -/
def create_snapshot (build_name : String) (volumes : List String) (volume_id : String) :
    Except UploadError (String × String) :=
  match selectVolume volumes volume_id with
  | none => Except.error UploadError.volumeNotFound
  | some v => Except.ok (v, "fedimg-snap-" ++ build_name)

/-- Python `s.split(sep)` for a one-character separator, as used at
ec2.py line 72 (`fedimg.AWS_REGIONS.split('|')`) and line 79
(`self.raw_url.split('/')`). -/
def splitOnChar (sep : Char) : List Char → List (List Char)
  | [] => [[]]
  | c :: t =>
      let r := splitOnChar sep t
      if c = sep then [] :: r
      else
        match r with
        | [] => [[c]]
        | h :: t2 => (c :: h) :: t2

/-- Python `s.replace(pat, rep)` for a nonempty pattern: replace every
non-overlapping occurrence, scanning left to right (ec2.py line 80).  The
`fuel` argument only makes the recursion structural: every step consumes at
least one character of `l`, so `fuel = l.length` never runs out. -/
def replaceAllAux (pat rep : List Char) : Nat → List Char → List Char
  | _, [] => []
  | 0, l => l
  | fuel + 1, c :: t =>
      if pat.isPrefixOf (c :: t) then
        rep ++ replaceAllAux pat rep fuel (t.drop (pat.length - 1))
      else c :: replaceAllAux pat rep fuel t

/-- Python `s.replace(pat, rep)` (ec2.py line 80). -/
def replaceAll (pat rep s : List Char) : List Char :=
  replaceAllAux pat rep s.length s

/-- `regions[0]` of `fedimg.AWS_REGIONS.split('|')` (ec2.py lines 72 to 75):
the region every remote operation of the job targets. -/
def firstRegion (awsRegions : String) : String :=
  String.mk ((splitOnChar '|' awsRegions.data).headD [])

/-- `self.raw_url.split('/')[-1]` (ec2.py line 79): the file name. -/
def fileNameOf (raw_url : String) : String :=
  String.mk ((splitOnChar '/' raw_url.data).getLastD [])

/-- `self.file_name.replace('.raw.xz', '')` (ec2.py line 80): the build
name. -/
def buildNameOf (raw_url : String) : String :=
  String.mk (replaceAll (".raw.xz".data) [] (fileNameOf raw_url).data)

/-- The image name and root device name computed at ec2.py lines 146 to 159:
the PV tag and `/dev/sda` for the `paravirtual` virtualization type, the HVM
tag and `/dev/sda1` for every other virtualization type. -/
def registration_params (virt_type build_name region vol_type : String) : String × String :=
  if virt_type = "paravirtual" then
    (build_name ++ "-" ++ region ++ "-PV-" ++ vol_type ++ "-0", "/dev/sda")
  else
    (build_name ++ "-" ++ region ++ "-HVM-" ++ vol_type ++ "-0", "/dev/sda1")

/-- A remote operation performed during `EC2Service.upload`
(ec2.py lines 95 to 185), in program order.  Operations that carry a region
argument or that name a regional endpoint record it; the two euca commands
receive `--region`, the registration is performed through the driver that
`region_to_driver(region)` produced, and the notifications carry the
destination label built from the region. -/
inductive Event where
  | msgStarted (dest : String)
  | importVolume (region : String)
  | describeTasks (task_id : String) (region : String)
  | listVolumes
  | createSnapshot (volume_id : String)
  | checkSnapshot (snapshot_id : String)
  | modifySnapshotAttr (snapshot_id : String)
  | destroyVolume (volume_id : String)
  | registerImage (image_name : String) (root_device : String) (region : String)
  | msgCreated (dest : String) (image_id : String) (region : String)
deriving DecidableEq

/-- The inputs of one `EC2Service.upload` run: the configuration string
`AWS_REGIONS`, the constructor arguments, and the responses of the external
collaborators (the stdout of `euca-import-volume`, the volume id that
`describe_conversion_tasks` eventually resolves, the volume ids the driver
lists, the id of the created snapshot and the id of the registered image). -/
structure UploadArgs where
  awsRegions : String
  rawUrl : String
  virtType : String
  volType : String
  importOut : String
  volId : String
  volumes : List String
  snapId : String
  imageId : String

/-- `EC2Service.upload` (ec2.py lines 95 to 185) embedded as a trace: the
ordered remote operations, each paired with the references held after the
statement group it belongs to, together with the final outcome (`none` for a
completed run).  The run aborts with `volumeNotFound` when no listed volume
has the resolved id (the `IndexError` of ec2.py line 201); no other abort
exists on this path, in particular an absent task id in the import output is
passed on as the empty string. -/
def uploadRun (a : UploadArgs) : List (Event × Refs) × Option UploadError :=
  let region := firstRegion a.awsRegions
  let dest := "EC2 (" ++ region ++ ")"
  let s0 : Refs := ⟨none, none, none⟩
  let task_id := match_regex_pattern matchImportAt a.importOut
  let pre : List (Event × Refs) :=
    [(Event.msgStarted dest, s0),
     (Event.importVolume region, s0),
     (Event.describeTasks task_id region, s0)]
  match selectVolume a.volumes a.volId with
  | none => (pre ++ [(Event.listVolumes, s0)], some UploadError.volumeNotFound)
  | some v =>
      let s1 : Refs := ⟨some v, none, none⟩
      let s2 : Refs := ⟨some v, some a.snapId, none⟩
      let s3 : Refs := ⟨none, some a.snapId, none⟩
      let s4 : Refs := ⟨none, some a.snapId, some a.imageId⟩
      let p := registration_params a.virtType (buildNameOf a.rawUrl) region a.volType
      (pre ++
       [(Event.listVolumes, s1),
        (Event.createSnapshot v, s2),
        (Event.checkSnapshot a.snapId, s2),
        (Event.modifySnapshotAttr a.snapId, s2),
        (Event.destroyVolume v, s3),
        (Event.registerImage p.1 p.2 region, s4),
        (Event.msgCreated dest a.imageId region, s4)], none)

/-- The region an event explicitly targets, when it has one. -/
def eventRegion : Event → Option String
  | Event.importVolume r => some r
  | Event.describeTasks _ r => some r
  | Event.registerImage _ _ r => some r
  | Event.msgCreated _ _ r => some r
  | _ => none

/-- Whether an event is the image registration. -/
def isRegisterEvent : Event → Bool
  | Event.registerImage _ _ _ => true
  | _ => false

/-- One unit of work created by the batch dispatcher
(uploader.py lines 64 to 68). -/
structure ServiceSpec where
  url : String
  virt_type : String
  vol_type : String
deriving DecidableEq

/-- The list of `EC2Service` instances built by `fedimg.uploader.upload`
(uploader.py lines 46 to 70): for every url, for every virtualization type of
that url, one service with volume type `standard` and one with volume type
`gp2`, in program order; `pool.map` then runs one orchestration per
element. -/
def uploader_upload (urls : List String) (virt_types : String → List String) : List ServiceSpec :=
  match urls with
  | [] => []
  | url :: rest =>
      (virt_types url).flatMap
        (fun vt => [ServiceSpec.mk url vt "standard", ServiceSpec.mk url vt "gp2"])
      ++ uploader_upload rest virt_types

/-- Whether position `i` of `s` carries a whitespace character directly
followed by a match of the group matcher `f`: the spec-side reading of
an occurrence of a `\s(GROUP)` token. -/
def tokenAt (f : List Char → Option (List Char)) (s : List Char) (i : Nat) : Bool :=
  match s[i]? with
  | some c => isSpaceCharPy c && (f (s.drop (i + 1))).isSome
  | none => false

/-- `v` is a captured token of `s` for the group matcher `f`: some position
carries a whitespace character followed by a match capturing exactly `v`. -/
def isTokenOf (f : List Char → Option (List Char)) (s : List Char) (v : List Char) : Prop :=
  ∃ i c, s[i]? = some c ∧ isSpaceCharPy c = true ∧ f (s.drop (i + 1)) = some v

/-! ### Helper lemmas -/

theorem selectVolume_of_mem (v : String) :
    ∀ volumes : List String, v ∈ volumes → selectVolume volumes v = some v := by
  intro volumes
  induction volumes with
  | nil => intro h; simp at h
  | cons w t ih =>
    intro h
    rcases List.mem_cons.mp h with rfl | h2
    · simp [selectVolume, List.filter_cons]
    · by_cases hw : w = v
      · subst hw; simp [selectVolume, List.filter_cons]
      · have hbeq : (w == v) = false := by simp [hw]
        simpa [selectVolume, List.filter_cons, hbeq] using ih h2

theorem selectVolume_of_not_mem (v : String) :
    ∀ volumes : List String, v ∉ volumes → selectVolume volumes v = none := by
  intro volumes
  induction volumes with
  | nil => intro _; rfl
  | cons w t ih =>
    intro h
    simp only [List.mem_cons, not_or] at h
    have hbeq : (w == v) = false := by
      simp only [beq_eq_false_iff_ne, ne_eq]
      exact fun e => h.1 e.symm
    simpa [selectVolume, List.filter_cons, hbeq] using ih h.2

theorem tokenAt_cons_succ (f : List Char → Option (List Char)) (c : Char) (t : List Char)
    (i : Nat) : tokenAt f (c :: t) (i + 1) = tokenAt f t i := by
  simp [tokenAt]

theorem search_some_isTokenOf (f : List Char → Option (List Char)) :
    ∀ s v : List Char, searchTokenWith f s = some v → isTokenOf f s v := by
  intro s
  induction s with
  | nil => intro v h; simp [searchTokenWith] at h
  | cons c t ih =>
    intro v h
    by_cases hc : isSpaceCharPy c = true
    · rcases hf : f t with _ | w
      · have h2 : searchTokenWith f t = some v := by
          simpa [searchTokenWith, hc, hf] using h
        rcases ih v h2 with ⟨i, d, hg, hs, hm⟩
        exact ⟨i + 1, d, by simpa using hg, hs, by simpa using hm⟩
      · have hv : w = v := by simpa [searchTokenWith, hc, hf] using h
        exact ⟨0, c, by simp, hc, by simpa [hf] using congrArg some hv⟩
    · have h2 : searchTokenWith f t = some v := by
        simpa [searchTokenWith, hc] using h
      rcases ih v h2 with ⟨i, d, hg, hs, hm⟩
      exact ⟨i + 1, d, by simpa using hg, hs, by simpa using hm⟩

theorem search_none_no_token (f : List Char → Option (List Char)) :
    ∀ s : List Char, searchTokenWith f s = none → ∀ i, tokenAt f s i = false := by
  intro s
  induction s with
  | nil => intro _ i; simp [tokenAt]
  | cons c t ih =>
    intro h i
    by_cases hc : isSpaceCharPy c = true
    · rcases hf : f t with _ | w
      · have h2 : searchTokenWith f t = none := by
          simpa [searchTokenWith, hc, hf] using h
        cases i with
        | zero => simp [tokenAt, hf]
        | succ i => simpa [tokenAt_cons_succ] using ih h2 i
      · exfalso
        simp [searchTokenWith, hc, hf] at h
    · have h2 : searchTokenWith f t = none := by
        simpa [searchTokenWith, hc] using h
      cases i with
      | zero => simp [tokenAt, hc]
      | succ i => simpa [tokenAt_cons_succ] using ih h2 i

theorem search_isSome_eq_any (f : List Char → Option (List Char)) (s : List Char) :
    (searchTokenWith f s).isSome = (List.range s.length).any (tokenAt f s) := by
  rcases hs : searchTokenWith f s with _ | v
  · symm
    simp only [Option.isSome_none, List.any_eq_false]
    intro i _
    simpa using search_none_no_token f s hs i
  · symm
    simp only [Option.isSome_some, List.any_eq_true]
    rcases search_some_isTokenOf f s v hs with ⟨i, c, hg, hsp, hm⟩
    have hlen : i < s.length := by
      rcases List.getElem?_eq_some.mp hg with ⟨hl, _⟩
      exact hl
    refine ⟨i, List.mem_range.mpr hlen, ?_⟩
    simp [tokenAt, hg, hsp, hm]

/-! ### Concrete run inputs used by counterexamples and witnesses -/

/-- A representative successful run: three configured regions, a build with a
digit in its name, an import output carrying a task id, and a driver listing
exactly the resolved volume. -/
def sampleArgs : UploadArgs :=
  { awsRegions := "us-east-1|us-west-1|eu-west-1"
    rawUrl := "http://dl.fp.o/Fedora-25.raw.xz"
    virtType := "hvm"
    volType := "standard"
    importOut := "TaskId import-vol-ab12cd34"
    volId := "vol-0a1b2c3d4e5f6a7b8"
    volumes := ["vol-0a1b2c3d4e5f6a7b8"]
    snapId := "snap-1234"
    imageId := "ami-5678" }

/-- `sampleArgs` with the paravirtual virtualization type. -/
def samplePVArgs : UploadArgs :=
  { sampleArgs with virtType := "paravirtual" }

/-- `sampleArgs` with an import output in which no token matches
`\s(import-vol-\w{8})`. -/
def sampleNoTaskArgs : UploadArgs :=
  { sampleArgs with importOut := "volume import submitted" }

/-! ### Claims -/

/-- C1: the claim states that the next candidate name after a duplicate-name
error differs from the input only in its final maximal digit run, incremented
by exactly one as an integer (`foo-19` to `foo-20`), all earlier digits
unchanged.  The substitution the code performs (ec2.py lines 326 to 329)
instead rewrites the last digit of EVERY maximal digit run: `foo-19` becomes
`foo-110`, and in a realistic generated name the digits of the build name and
of the region are mutated as well. -/
theorem register_image_rename_concrete :
    register_image_next_name "foo-9" = "foo-10"
  ∧ register_image_next_name "foo-19" = "foo-110"
  ∧ register_image_next_name "foo-19" ≠ "foo-20"
  ∧ register_image_next_name "Fedora-25-us-east-1-HVM-standard-0"
      = "Fedora-26-us-east-2-HVM-standard-1"
  ∧ register_image_next_name "Fedora-25-us-east-1-HVM-standard-0"
      ≠ "Fedora-25-us-east-1-HVM-standard-1" := by
  refine ⟨by decide, by decide, by decide, by decide, by decide⟩

/-- C2: the claim states that whenever a Snapshot reference is held the
cleanup routine destroys the snapshot and clears the reference, regardless of
the Image reference, and that the image is deleted exactly when
`delete_images` is true and an Image is held.  The code (ec2.py line 91)
destroys the snapshot only when an Image reference is ALSO held: on a state
holding only a snapshot, cleanup does nothing.  The third conjunct shows the
two guards as they actually behave when both references are held. -/
theorem clean_up_snapshot_guard_concrete :
    clean_up ⟨none, some "snap-7", none⟩ true = (⟨none, some "snap-7", none⟩, [])
  ∧ clean_up ⟨none, some "snap-7", none⟩ false = (⟨none, some "snap-7", none⟩, [])
  ∧ clean_up ⟨none, some "snap-7", some "ami-1"⟩ true
      = (⟨none, none, some "ami-1"⟩,
         [CleanupCall.deleteImage "ami-1", CleanupCall.destroySnapshot "snap-7"])
  ∧ clean_up ⟨none, some "snap-7", some "ami-1"⟩ false
      = (⟨none, none, some "ami-1"⟩, [CleanupCall.destroySnapshot "snap-7"]) := by
  refine ⟨by decide, by decide, by decide, by decide⟩

/-- C4: one poll of the conversion-status parser.  If the output does not
contain `completed` it returns the not-yet signal whatever else it contains;
if it contains `completed` and some position carries whitespace followed by a
`vol-` token of 17 identifier characters, it returns such a token (the
leftmost); if it contains `completed` and no such token exists, it fails with
the error modelling the crash on the absent match. -/
theorem describe_conversion_tasks_spec (out : String) :
    (strContains out.data ("completed".data) = false →
        describe_conversion_tasks out = Except.ok PollResult.notYet)
  ∧ (strContains out.data ("completed".data) = true →
      (List.range out.data.length).any (tokenAt matchVolAt out.data) = true →
        ∃ v, describe_conversion_tasks out = Except.ok (PollResult.done (String.mk v))
          ∧ isTokenOf matchVolAt out.data v)
  ∧ (strContains out.data ("completed".data) = true →
      (List.range out.data.length).any (tokenAt matchVolAt out.data) = false →
        describe_conversion_tasks out = Except.error UploadError.malformedStatus) := by
  refine ⟨?_, ?_, ?_⟩
  · intro h
    simp [describe_conversion_tasks, h]
  · intro h1 h2
    have h3 : (searchTokenWith matchVolAt out.data).isSome = true := by
      rw [search_isSome_eq_any]; exact h2
    rcases ho : searchTokenWith matchVolAt out.data with _ | v
    · rw [ho] at h3; simp at h3
    · exact ⟨v, by simp [describe_conversion_tasks, h1, ho],
        search_some_isTokenOf matchVolAt out.data v ho⟩
  · intro h1 h2
    have h3 : searchTokenWith matchVolAt out.data = none := by
      have h4 := search_isSome_eq_any matchVolAt out.data
      rw [h2] at h4
      exact Option.not_isSome_iff_eq_none.mp (by simp [h4])
    simp [describe_conversion_tasks, h1, h3]

/-- Witness for C4, at the three kinds of concrete output. -/
theorem describe_conversion_tasks_spec_witness :
    describe_conversion_tasks "pending conversion" = Except.ok PollResult.notYet
  ∧ (∃ v, describe_conversion_tasks "task completed vol-01234567890abcdef"
        = Except.ok (PollResult.done (String.mk v))
      ∧ isTokenOf matchVolAt ("task completed vol-01234567890abcdef".data) v)
  ∧ describe_conversion_tasks "conversion completed with no volume token"
      = Except.error UploadError.malformedStatus :=
  ⟨(describe_conversion_tasks_spec "pending conversion").1 (by decide),
   (describe_conversion_tasks_spec "task completed vol-01234567890abcdef").2.1
     (by decide) (by decide),
   (describe_conversion_tasks_spec "conversion completed with no volume token").2.2
     (by decide) (by decide)⟩

/-- C6: the volume lookup of snapshot creation.  When no listed volume has
the requested id the run fails with the volume-not-found error (the
`IndexError` of ec2.py line 201, with no retry decorator on
`create_snapshot`); when a listed volume has the id, the volume selected for
snapshot creation is exactly that volume, under the snapshot name derived
from the build name. -/
theorem create_snapshot_lookup_spec (build_name volume_id : String) (volumes : List String) :
    (volume_id ∉ volumes →
        create_snapshot build_name volumes volume_id = Except.error UploadError.volumeNotFound)
  ∧ (volume_id ∈ volumes →
        create_snapshot build_name volumes volume_id
          = Except.ok (volume_id, "fedimg-snap-" ++ build_name)) := by
  constructor
  · intro h
    simp [create_snapshot, selectVolume_of_not_mem volume_id volumes h]
  · intro h
    simp [create_snapshot, selectVolume_of_mem volume_id volumes h]

/-- Witness for C6, at a missing and at a present volume id. -/
theorem create_snapshot_lookup_witness :
    create_snapshot "Fedora-25" ["vol-a", "vol-b"] "vol-c"
      = Except.error UploadError.volumeNotFound
  ∧ create_snapshot "Fedora-25" ["vol-a", "vol-b"] "vol-b"
      = Except.ok ("vol-b", "fedimg-snap-" ++ "Fedora-25") :=
  ⟨(create_snapshot_lookup_spec "Fedora-25" "vol-c" ["vol-a", "vol-b"]).1 (by decide),
   (create_snapshot_lookup_spec "Fedora-25" "vol-b" ["vol-a", "vol-b"]).2 (by decide)⟩

/-- C7 counterexample: the claim states that a second cleanup invocation with
the same flags finds the references cleared and performs no driver call.  On
a state holding an image, with `delete_images` true, the first invocation
does not clear the image reference, and the second invocation issues the
image deletion again. -/
theorem clean_up_twice_counterexample :
    ¬ (clean_up (clean_up ⟨none, some "snap-1", some "ami-1"⟩ true).1 true
        = ((clean_up ⟨none, some "snap-1", some "ami-1"⟩ true).1, [])) := by
  decide

/-- C7 amended: cleanup is idempotent whenever `delete_images` is false or no
Image reference is held: the second invocation performs no driver call and
leaves the state unchanged.  (When `delete_images` is true and an Image is
held, the image deletion is repeated, since cleanup never clears the image
reference.) -/
theorem clean_up_twice_amended (st : Refs) (delete_images : Bool)
    (h : delete_images = false ∨ st.image = none) :
    clean_up (clean_up st delete_images).1 delete_images
      = ((clean_up st delete_images).1, []) := by
  rcases st with ⟨v, s, i⟩
  rcases h with rfl | h
  · cases s <;> cases i <;> simp [clean_up]
  · have hi : i = none := h
    subst hi
    cases s <;> cases delete_images <;> simp [clean_up]

/-- Witness for C7 amended. -/
theorem clean_up_twice_witness :
    clean_up (clean_up ⟨none, some "snap-1", some "ami-1"⟩ false).1 false
      = ((clean_up ⟨none, some "snap-1", some "ami-1"⟩ false).1, []) :=
  clean_up_twice_amended ⟨none, some "snap-1", some "ami-1"⟩ false (Or.inl rfl)

/-- C3 counterexample: the claim states that at every point of a run at most
one of the Volume and Snapshot references is live.  In the concrete
successful run both references are simultaneously held (between snapshot
creation and volume destruction, in particular while the snapshot is made
public after its completion was already confirmed). -/
theorem upload_live_window_counterexample :
    ¬ (∀ p ∈ (uploadRun sampleArgs).1,
        ¬ (p.2.volume.isSome = true ∧ p.2.snapshot.isSome = true)) := by
  decide

/-- C3 amended: both references are live from snapshot creation until the
volume is destroyed; after the snapshot completion is confirmed, one further
step (making the snapshot public) still runs with both references held, and
only the step after it destroys the volume and clears its reference, before
registration; from the volume destruction on, at most the Snapshot reference
is live. -/
theorem upload_live_window_amended (a : UploadArgs) (h : a.volId ∈ a.volumes) :
    (uploadRun a).1.get? 6
        = some (Event.modifySnapshotAttr a.snapId, ⟨some a.volId, some a.snapId, none⟩)
  ∧ (uploadRun a).1.get? 7
        = some (Event.destroyVolume a.volId, ⟨none, some a.snapId, none⟩)
  ∧ (∀ p ∈ (uploadRun a).1, p.2.volume.isSome = true → p.2.snapshot.isSome = true →
        (p.1 = Event.createSnapshot a.volId ∨ p.1 = Event.checkSnapshot a.snapId
          ∨ p.1 = Event.modifySnapshotAttr a.snapId))
  ∧ (∀ p ∈ (uploadRun a).1.drop 7, p.2.volume = none) := by
  have hsel := selectVolume_of_mem a.volId a.volumes h
  refine ⟨?_, ?_, ?_, ?_⟩
  · simp [uploadRun, hsel]
  · simp [uploadRun, hsel]
  · intro p hp h1 h2
    simp only [uploadRun, hsel, List.cons_append, List.nil_append, List.mem_cons,
      List.not_mem_nil, or_false] at hp
    rcases hp with rfl | rfl | rfl | rfl | rfl | rfl | rfl | rfl | rfl | rfl <;> simp_all
  · intro p hp
    simp only [uploadRun, hsel, List.cons_append, List.nil_append, List.drop_succ_cons,
      List.drop_zero, List.mem_cons, List.not_mem_nil, or_false] at hp
    rcases hp with rfl | rfl | rfl <;> rfl

/-- Witness for C3 amended, on the concrete successful run. -/
theorem upload_live_window_witness :
    (uploadRun sampleArgs).1.get? 6
        = some (Event.modifySnapshotAttr sampleArgs.snapId,
            ⟨some sampleArgs.volId, some sampleArgs.snapId, none⟩)
  ∧ (uploadRun sampleArgs).1.get? 7
        = some (Event.destroyVolume sampleArgs.volId, ⟨none, some sampleArgs.snapId, none⟩)
  ∧ (∀ p ∈ (uploadRun sampleArgs).1, p.2.volume.isSome = true → p.2.snapshot.isSome = true →
        (p.1 = Event.createSnapshot sampleArgs.volId
          ∨ p.1 = Event.checkSnapshot sampleArgs.snapId
          ∨ p.1 = Event.modifySnapshotAttr sampleArgs.snapId))
  ∧ (∀ p ∈ (uploadRun sampleArgs).1.drop 7, p.2.volume = none) :=
  upload_live_window_amended sampleArgs (by decide)

/-- C5 counterexample: on an import output in which no token matches
`\s(import-vol-\w{8})`, the extracted task id is the empty string and the run
proceeds: the conversion-status query is issued with the empty task id and
the run completes without any task-id error. -/
theorem task_id_fallthrough_counterexample :
    match_regex_pattern matchImportAt "volume import submitted" = ""
  ∧ (Event.describeTasks "" "us-east-1", (⟨none, none, none⟩ : Refs))
      ∈ (uploadRun sampleNoTaskArgs).1
  ∧ (uploadRun sampleNoTaskArgs).2 = none := by
  refine ⟨by decide, by decide, by decide⟩

/-- C5 amended: whenever the import output has no matching token, the task
id extracted by `match_regex_pattern` is the empty string, the orchestrator
proceeds to query the conversion status with that empty id, and no
`taskIdNotFound` failure is ever produced. -/
theorem task_id_fallthrough_amended (a : UploadArgs)
    (h : searchTokenWith matchImportAt a.importOut.data = none) :
    match_regex_pattern matchImportAt a.importOut = ""
  ∧ (Event.describeTasks "" (firstRegion a.awsRegions), (⟨none, none, none⟩ : Refs))
      ∈ (uploadRun a).1
  ∧ (uploadRun a).2 ≠ some UploadError.taskIdNotFound := by
  have h1 : match_regex_pattern matchImportAt a.importOut = "" := by
    simp [match_regex_pattern, h]
  refine ⟨h1, ?_, ?_⟩
  · rcases hsel : selectVolume a.volumes a.volId with _ | v <;>
      simp [uploadRun, hsel, h1]
  · rcases hsel : selectVolume a.volumes a.volId with _ | v <;>
      simp [uploadRun, hsel]

/-- Witness for C5 amended. -/
theorem task_id_fallthrough_witness :
    match_regex_pattern matchImportAt sampleNoTaskArgs.importOut = ""
  ∧ (Event.describeTasks "" (firstRegion sampleNoTaskArgs.awsRegions),
      (⟨none, none, none⟩ : Refs)) ∈ (uploadRun sampleNoTaskArgs).1
  ∧ (uploadRun sampleNoTaskArgs).2 ≠ some UploadError.taskIdNotFound :=
  task_id_fallthrough_amended sampleNoTaskArgs (by decide)

/-- C8: for the `paravirtual` virtualization type the generated image name
carries the PV tag and the root device is `/dev/sda`; for every other
virtualization type the tag is HVM and the root device is `/dev/sda1`; in
both cases the name follows the pattern
`build name - region - tag - volume type - 0`, and the registration step of a
completed run uses exactly these parameters. -/
theorem registration_params_spec (a : UploadArgs) (h : a.volId ∈ a.volumes) :
    (a.virtType = "paravirtual" →
        registration_params a.virtType (buildNameOf a.rawUrl) (firstRegion a.awsRegions) a.volType
          = (buildNameOf a.rawUrl ++ "-" ++ firstRegion a.awsRegions ++ "-PV-"
              ++ a.volType ++ "-0", "/dev/sda"))
  ∧ (a.virtType ≠ "paravirtual" →
        registration_params a.virtType (buildNameOf a.rawUrl) (firstRegion a.awsRegions) a.volType
          = (buildNameOf a.rawUrl ++ "-" ++ firstRegion a.awsRegions ++ "-HVM-"
              ++ a.volType ++ "-0", "/dev/sda1"))
  ∧ (Event.registerImage
        (registration_params a.virtType (buildNameOf a.rawUrl)
          (firstRegion a.awsRegions) a.volType).1
        (registration_params a.virtType (buildNameOf a.rawUrl)
          (firstRegion a.awsRegions) a.volType).2
        (firstRegion a.awsRegions), (⟨none, some a.snapId, some a.imageId⟩ : Refs))
      ∈ (uploadRun a).1 := by
  have hsel := selectVolume_of_mem a.volId a.volumes h
  refine ⟨fun hv => by simp [registration_params, hv],
          fun hv => by simp [registration_params, hv], ?_⟩
  simp [uploadRun, hsel]

/-- Witness for C8, at a paravirtual and at an hvm run. -/
theorem registration_params_witness :
    registration_params samplePVArgs.virtType (buildNameOf samplePVArgs.rawUrl)
        (firstRegion samplePVArgs.awsRegions) samplePVArgs.volType
      = (buildNameOf samplePVArgs.rawUrl ++ "-" ++ firstRegion samplePVArgs.awsRegions
          ++ "-PV-" ++ samplePVArgs.volType ++ "-0", "/dev/sda")
  ∧ registration_params sampleArgs.virtType (buildNameOf sampleArgs.rawUrl)
        (firstRegion sampleArgs.awsRegions) sampleArgs.volType
      = (buildNameOf sampleArgs.rawUrl ++ "-" ++ firstRegion sampleArgs.awsRegions
          ++ "-HVM-" ++ sampleArgs.volType ++ "-0", "/dev/sda1") :=
  ⟨(registration_params_spec samplePVArgs (by decide)).1 (by decide),
   (registration_params_spec sampleArgs (by decide)).2.1 (by decide)⟩

/-- C10: every remote operation of a completed run that targets a region
targets the first region of the configured pipe-separated region list,
whatever the rest of the configuration holds, and exactly one image
registration occurs in the run. -/
theorem upload_single_region_spec (a : UploadArgs) (h : a.volId ∈ a.volumes) :
    (∀ p ∈ (uploadRun a).1, ∀ r, eventRegion p.1 = some r → r = firstRegion a.awsRegions)
  ∧ (uploadRun a).1.countP (fun p => isRegisterEvent p.1) = 1 := by
  have hsel := selectVolume_of_mem a.volId a.volumes h
  constructor
  · intro p hp r hr
    simp only [uploadRun, hsel, List.cons_append, List.nil_append, List.mem_cons,
      List.not_mem_nil, or_false] at hp
    rcases hp with rfl | rfl | rfl | rfl | rfl | rfl | rfl | rfl | rfl | rfl <;>
      simp_all [eventRegion]
  · simp [uploadRun, hsel, List.countP_cons, isRegisterEvent]

/-- Witness for C10, on a run configured with three regions. -/
theorem upload_single_region_witness :
    (∀ p ∈ (uploadRun sampleArgs).1, ∀ r,
        eventRegion p.1 = some r → r = firstRegion sampleArgs.awsRegions)
  ∧ (uploadRun sampleArgs).1.countP (fun p => isRegisterEvent p.1) = 1 :=
  upload_single_region_spec sampleArgs (by decide)

/-- The inner loop of the dispatcher produces two services per
virtualization type. -/
theorem flatMap_pair_length (l : List String) (f g : String → ServiceSpec) :
    (l.flatMap (fun vt => [f vt, g vt])).length = 2 * l.length := by
  induction l with
  | nil => rfl
  | cons x t ih =>
      simp only [List.flatMap_cons, List.length_append, ih, List.length_cons]
      simp
      omega

/-- C9 counterexample: with three urls of two virtualization types each, the
dispatcher creates twelve orchestrator runs, not six: for each
(url, virtualization type) pair it appends one service per volume type. -/
theorem uploader_fanout_counterexample :
    (uploader_upload ["u1", "u2", "u3"] (fun _ => ["hvm", "paravirtual"])).length = 12
  ∧ (uploader_upload ["u1", "u2", "u3"] (fun _ => ["hvm", "paravirtual"])).length ≠ 6 := by
  refine ⟨by decide, by decide⟩

/-- C9 amended: with two virtualization types per url, the dispatcher
creates exactly four runs per url — one per
(url, virtualization type, volume type) triple with the volume types
`standard` and `gp2` — hence twelve runs for three urls. -/
theorem uploader_fanout_amended (urls : List String) (virt_types : String → List String)
    (h : ∀ u ∈ urls, (virt_types u).length = 2) :
    (uploader_upload urls virt_types).length = 4 * urls.length := by
  induction urls with
  | nil => rfl
  | cons u rest ih =>
      have h1 := h u (List.mem_cons_self u rest)
      have h2 : ∀ x ∈ rest, (virt_types x).length = 2 :=
        fun x hx => h x (List.mem_cons_of_mem u hx)
      simp only [uploader_upload, List.length_append, flatMap_pair_length, ih h2, h1,
        List.length_cons]
      omega

/-- Witness for C9 amended, at the batch of the counterexample. -/
theorem uploader_fanout_witness :
    (uploader_upload ["u1", "u2", "u3"] (fun _ => ["hvm", "paravirtual"])).length
      = 4 * (["u1", "u2", "u3"] : List String).length :=
  uploader_fanout_amended ["u1", "u2", "u3"] (fun _ => ["hvm", "paravirtual"])
    (fun _ _ => rfl)
